import Mathlib

/-!
# Connection loop and channel relay of the chat server (package `websocket`)

Shallow embedding of `src/websocket/websocket.go`: `Write`, `NewConnection`
and `chatReceiver`.

The code talks to a socket, to Redis and to the message controller.  Those
collaborators are kept as an explicit environment `Env σ` of state-passing
operations over an arbitrary state `σ`; what the functions of this file do is
recorded as a trace of `Event`s in program order.  The blocking inputs (the
frames returned by `wsutil.ReadClientData`, the outcomes of the `select` of the
relay) are given as lists; a function that has consumed its whole list is
`blocked` on the next input, it has not returned.
-/

namespace Websocket

/-! ## Data -/

/-- The type `ws.OpCode`, a small number on the wire. -/
abbrev OpCode := Nat

/-- The constant `ws.OpText`. -/
def OpText : OpCode := 1

/-- The type `rediscli.User`.  The code reads and sets `UUID` and `Username`;
the remaining fields of the declaration (not among the sources) are kept as
name/value pairs, the zero value being the empty list. -/
structure User where
  UUID : String
  Username : String
  rest : List (String × String)
deriving DecidableEq, Repr

/-- The type `message.DataChannelMessage`.  The code uses `SenderUUID`,
`RecipientUUID`, `Sender` and `Recipient`; the remaining fields (the body of
the chat message among them) are kept as name/value pairs. -/
structure DataChannelMessage where
  SenderUUID : String
  RecipientUUID : String
  Sender : Option User
  Recipient : Option User
  rest : List (String × String)
deriving DecidableEq, Repr

/-- The type `message.Message`.  The code uses `Type`, `UserUUID` and
`ChannelMessage`; every other payload field of the declaration is kept in
`rest`, empty when none of them is populated. -/
structure Message where
  Type_ : String
  UserUUID : String
  ChannelMessage : Option DataChannelMessage
  rest : List (String × String)
deriving DecidableEq, Repr

/-- The `interface{}` payload handed to `Controller.Error`: the decoded
message `msg`, or the text `string(data)`. -/
inductive Payload where
  | message (msg : Message)
  | text (data : String)
deriving DecidableEq, Repr

/-- The `*message.Message` values handed to `Write`.  `Controller.Ready` and
`Controller.Error` live in package `message`, which is not among the sources,
so their results are kept as the calls that built them; `literal` is a
`&message.Message{...}` composite literal. -/
inductive Envelope where
  | ready (userSessionUUID : String)
  | error (code : Nat) (err : String) (userUUID : String) (payload : Payload)
  | literal (msg : Message)
deriving DecidableEq, Repr

/-- A non-nil `IError`: its method `Error()` returns the pair `(code, err)`. -/
structure IError where
  code : Nat
  err : String
deriving DecidableEq, Repr

/-- A non-nil `*rediscli.ChannelPubSub`, identified by a number. -/
abbrev ChannelPubSub := Nat

/-- Result of `wsutil.ReadClientData(conn)`: an error, or a frame with its
op code. -/
inductive ReadResult where
  | err (e : String)
  | ok (data : String) (op : OpCode)
deriving DecidableEq, Repr

/-- Outcome of one round of the `select` in `chatReceiver`: a message
delivered on `channel.Channel()`, given by its `Payload`, or the signal on
`channel.Close()`. -/
inductive Select where
  | data (payload : String)
  | close
deriving DecidableEq, Repr

/-- Modelled from the spec: the recognised request types of the wire envelope
(`message.DataTypeSignIn` and the other constants of package `message`, which
is not among the sources). -/
def DataTypeSignIn : String := "signin"

/-- Modelled from the spec: `message.DataTypeSignUp`. -/
def DataTypeSignUp : String := "signup"

/-- Modelled from the spec: `message.DataTypeSignOut`. -/
def DataTypeSignOut : String := "signout"

/-- Modelled from the spec: `message.DataTypeUsers`. -/
def DataTypeUsers : String := "users"

/-- Modelled from the spec: `message.DataTypeChannelJoin`. -/
def DataTypeChannelJoin : String := "channel_join"

/-- Modelled from the spec: `message.DataTypeChannelMessage`. -/
def DataTypeChannelMessage : String := "channel_message"

/-- Modelled from the spec: `message.DataTypeChannelLeave`. -/
def DataTypeChannelLeave : String := "channel_leave"

/-- The seven request types that the `switch` of `NewConnection` dispatches. -/
def dispatchedTypes : List String :=
  [DataTypeSignIn, DataTypeSignUp, DataTypeSignOut, DataTypeUsers,
   DataTypeChannelJoin, DataTypeChannelMessage, DataTypeChannelLeave]

/-! ## Trace -/

/-- What the code does, one event per call or statement with an effect. -/
inductive Event where
  | AddConnection (userSessionUUID : String) (err : Option String)
  | connectionAdd (userSessionUUID : String)
  | initErr (err : Option String)
  | Write (op : OpCode) (m : Envelope)
  | WriteServerMessage (op : OpCode) (data : String) (err : Option String)
  | ReadClientData (r : ReadResult)
  | log (text : String)
  | logIError (e : IError)
  | SignIn (userSessionUUID : String) (op : OpCode) (msg : Message)
  | SignUp (userSessionUUID : String) (op : OpCode) (msg : Message)
  | SignOut (userSessionUUID : String) (op : OpCode) (msg : Message)
  | Users (userSessionUUID : String) (op : OpCode)
  | ChannelJoin (userSessionUUID : String) (op : OpCode) (msg : Message)
  | ChannelMessage (userSessionUUID : String) (op : OpCode) (msg : Message)
  | ChannelLeave (userSessionUUID : String) (msg : Message)
  | goChatReceiver (channel : ChannelPubSub)
  | connClose
  | DelConnection (userSessionUUID : String) (err : Option String)
  | connectionDel (userSessionUUID : String)
  | receive (payload : String)
  | UserGet (uuid : String)
  | Closed (channel : ChannelPubSub)
deriving DecidableEq, Repr

/-- The envelope of a call of `Write`. -/
def Event.asWrite : Event → Option (OpCode × Envelope)
  | .Write op m => some (op, m)
  | _ => none

/-- The envelopes handed to `Write`, in order. -/
def writesOf (tr : List Event) : List (OpCode × Envelope) :=
  tr.filterMap Event.asWrite

/-- The handle of a `go chatReceiver(...)` statement. -/
def Event.asRelay : Event → Option ChannelPubSub
  | .goChatReceiver h => some h
  | _ => none

/-- The relays started with `go chatReceiver(...)`, in order. -/
def relaysStarted (tr : List Event) : List ChannelPubSub :=
  tr.filterMap Event.asRelay

/-- The result of a call of `wsutil.ReadClientData`. -/
def Event.asRead : Event → Option ReadResult
  | .ReadClientData r => some r
  | _ => none

/-- The results of the calls of `wsutil.ReadClientData`, in order. -/
def readsOf (tr : List Event) : List ReadResult :=
  tr.filterMap Event.asRead

/-- The frames sent with `wsutil.WriteServerMessage`, in order. -/
def framesOf (tr : List Event) : List Event :=
  tr.filter (fun e => match e with
    | .WriteServerMessage _ _ _ => true
    | _ => false)

/-- The statement `if err != nil { log.Println(err) }`. -/
def logErr : Option String → List Event
  | some e => [.log e]
  | none => []

/-- Whether the event is the call of one of the seven controller operations. -/
def Event.isControllerOp : Event → Bool
  | .SignIn _ _ _ => true
  | .SignUp _ _ _ => true
  | .SignOut _ _ _ => true
  | .Users _ _ => true
  | .ChannelJoin _ _ _ => true
  | .ChannelMessage _ _ _ => true
  | .ChannelLeave _ _ => true
  | _ => false

/-- The calls of controller operations, in order. -/
def controllerCalls (tr : List Event) : List Event :=
  tr.filter Event.isControllerOp

/-- The reads a serving loop performs when the successive results of
`wsutil.ReadClientData` are `reads`: all of them up to and including the first
failure. -/
def consumed : List ReadResult → List ReadResult
  | [] => []
  | .err e :: _ => [.err e]
  | .ok data op :: reads => .ok data op :: consumed reads

/-! ## Environment -/

/-- The collaborators of package `websocket`, over a state `σ` that stands for
the socket, Redis and the controller.  `errCode` and `errCodeJSUnmarshal` are
constants of the package declared outside the sources. -/
structure Env (σ : Type) where
  errCode : Nat
  errCodeJSUnmarshal : Nat
  /-- The call `json.Marshal(message)`. -/
  marshal : Envelope → Except String String
  /-- The call `json.Unmarshal(data, msg)` on a fresh `msg`: the message as
  it is left, and the error if any. -/
  unmarshal : String → Message × Option String
  /-- The call `dec.Decode(msg)` on a fresh `DataChannelMessage`. -/
  decode : String → DataChannelMessage × Option String
  WriteServerMessage : σ → OpCode → String → σ × Option String
  connClose : σ → σ
  AddConnection : σ → String → σ × Option String
  DelConnection : σ → String → σ × Option String
  UserGet : σ → String → σ × Except String User
  SignIn : σ → String → OpCode → Message → σ × Option IError
  SignUp : σ → String → OpCode → Message → σ × Option IError
  SignOut : σ → String → OpCode → Message → σ × Option IError
  Users : σ → String → OpCode → σ × Option IError
  ChannelJoin : σ → String → OpCode → Message → σ × Option ChannelPubSub × Option IError
  ChannelMessage : σ → String → OpCode → Message → σ × Option IError
  ChannelLeave : σ → String → Message → σ × Option IError

/-- State of the process: the collaborators and the local connection table. -/
structure World (σ : Type) where
  ext : σ
  connections : List String

/-- Modelled from the spec: `connectionAdd`, the insert of the process-local
table that maps session identifiers to live connections (declared in package
`websocket` outside the sources).  The table is kept as the list of its
keys. -/
def connectionAdd {σ : Type} (w : World σ) (userSessionUUID : String) : World σ :=
  { w with connections := userSessionUUID :: w.connections }

/-- Modelled from the spec: `connectionDel`, the remove of the process-local
connection table. -/
def connectionDel {σ : Type} (w : World σ) (userSessionUUID : String) : World σ :=
  { w with connections := w.connections.filter (fun k => k ≠ userSessionUUID) }

/-- Whether a function has returned or is blocked waiting for its next input. -/
inductive Status where
  | returned
  | blocked
deriving DecidableEq, Repr

/-- Result of running a loop over the state of the collaborators. -/
structure Outcome (σ : Type) where
  state : σ
  trace : List Event
  status : Status

/-- The same outcome after the events `evs`. -/
def Outcome.after {σ : Type} (evs : List Event) (o : Outcome σ) : Outcome σ :=
  { o with trace := evs ++ o.trace }

/-- Result of `NewConnection`. -/
structure Result (σ : Type) where
  world : World σ
  trace : List Event
  status : Status

/-! ## The code -/

/-- The function `Write`: a marshal failure is logged and reported as `nil`,
a failed `wsutil.WriteServerMessage` is logged and returned. -/
def Write {σ : Type} (env : Env σ) (s : σ) (op : OpCode) (m : Envelope) :
    σ × List Event × Option String :=
  match env.marshal m with
  | .error e => (s, [.Write op m, .log e], none)
  | .ok data =>
    match env.WriteServerMessage s op data with
    | (s1, some e) => (s1, [.Write op m, .WriteServerMessage op data (some e), .log e], some e)
    | (s1, none) => (s1, [.Write op m, .WriteServerMessage op data none], none)

/-- The statement `if receivedErr != nil { ... }` that ends the dispatch
branch of `NewConnection`. -/
def reportReceivedErr {σ : Type} (env : Env σ) (userSessionUUID : String) (s : σ)
    (data : String) (op : OpCode) : Option IError → σ × List Event
  | none => (s, [])
  | some receivedErr =>
    let w := Write env s op
      (.error receivedErr.code receivedErr.err userSessionUUID (.text data))
    (w.1, [.logIError receivedErr] ++ w.2.1 ++ [.logIError receivedErr])

/-- The `switch msg.Type` of `NewConnection` together with the report of
`receivedErr` that follows it, for a message that decoded.  In the `default`
case `receivedErr` stays nil, so the `continue` taken after a failed `Write`
and the fall-through after a successful one both lead to the next read. -/
def dispatch {σ : Type} (env : Env σ) (userSessionUUID : String) (s : σ)
    (data : String) (op : OpCode) (msg : Message) : σ × List Event :=
  if msg.Type_ = DataTypeSignIn then
    let r := env.SignIn s userSessionUUID op msg
    let k := reportReceivedErr env userSessionUUID r.1 data op r.2
    (k.1, .SignIn userSessionUUID op msg :: k.2)
  else if msg.Type_ = DataTypeSignUp then
    let r := env.SignUp s userSessionUUID op msg
    let k := reportReceivedErr env userSessionUUID r.1 data op r.2
    (k.1, .SignUp userSessionUUID op msg :: k.2)
  else if msg.Type_ = DataTypeSignOut then
    let r := env.SignOut s userSessionUUID op msg
    let k := reportReceivedErr env userSessionUUID r.1 data op r.2
    (k.1, .SignOut userSessionUUID op msg :: k.2)
  else if msg.Type_ = DataTypeUsers then
    let r := env.Users s userSessionUUID op
    let k := reportReceivedErr env userSessionUUID r.1 data op r.2
    (k.1, .Users userSessionUUID op :: k.2)
  else if msg.Type_ = DataTypeChannelJoin then
    let r := env.ChannelJoin s userSessionUUID op msg
    let k := reportReceivedErr env userSessionUUID r.1 data op r.2.2
    match r.2.1 with
    | some channelPubSub =>
      (k.1, .ChannelJoin userSessionUUID op msg :: .goChatReceiver channelPubSub :: k.2)
    | none => (k.1, .ChannelJoin userSessionUUID op msg :: k.2)
  else if msg.Type_ = DataTypeChannelMessage then
    let r := env.ChannelMessage s userSessionUUID op msg
    let k := reportReceivedErr env userSessionUUID r.1 data op r.2
    (k.1, .ChannelMessage userSessionUUID op msg :: k.2)
  else if msg.Type_ = DataTypeChannelLeave then
    let r := env.ChannelLeave s userSessionUUID msg
    let k := reportReceivedErr env userSessionUUID r.1 data op r.2
    (k.1, .ChannelLeave userSessionUUID msg :: k.2)
  else
    let w := Write env s op
      (.error env.errCode ("unknow request data type: " ++ msg.Type_) msg.UserUUID
        (.message msg))
    (w.1, w.2.1 ++ logErr w.2.2)

/-- One pass through the body of the `for` loop of `NewConnection` after a
successful read of the frame `data` with op code `op`. -/
def serveFrame {σ : Type} (env : Env σ) (userSessionUUID : String) (s : σ)
    (data : String) (op : OpCode) : σ × List Event :=
  match env.unmarshal data with
  | (msg, some e) =>
    let w := Write env s op (.error env.errCodeJSUnmarshal e userSessionUUID (.message msg))
    (w.1, w.2.1)
  | (msg, none) =>
    let d := dispatch env userSessionUUID s data op msg
    (d.1, .log ("<<<<<<<<<<<< Received: " ++ data) :: d.2)

/-- The `for` loop of `NewConnection` over the results of the successive
calls of `wsutil.ReadClientData`. -/
def serve {σ : Type} (env : Env σ) (userSessionUUID : String) :
    σ → List ReadResult → Outcome σ
  | s, [] => { state := s, trace := [], status := .blocked }
  | s, .err e :: _ =>
    { state := s, trace := [.ReadClientData (.err e), .log e], status := .returned }
  | s, .ok data op :: reads =>
    let f := serveFrame env userSessionUUID s data op
    (serve env userSessionUUID f.1 reads).after (.ReadClientData (.ok data op) :: f.2)

/-- The deferred function of `NewConnection`. -/
def teardown {σ : Type} (env : Env σ) (userSessionUUID : String) (w : World σ) :
    World σ × List Event :=
  let s1 := env.connClose w.ext
  let r := env.DelConnection s1 userSessionUUID
  (connectionDel { w with ext := r.1 } userSessionUUID,
    [.connClose, .DelConnection userSessionUUID r.2] ++ logErr r.2
      ++ [.connectionDel userSessionUUID])

/-- The part of `NewConnection` that runs once the deferred function is
registered: the ready envelope, the send on `initErr`, the serving loop. -/
def connectionBody {σ : Type} (env : Env σ) (userSessionUUID : String) (s : σ)
    (reads : List ReadResult) : Outcome σ :=
  let w := Write env s OpText (.ready userSessionUUID)
  match w.2.2 with
  | some e => { state := w.1, trace := w.2.1 ++ [.initErr (some e)], status := .returned }
  | none => (serve env userSessionUUID w.1 reads).after (w.2.1 ++ [.initErr none])

/-- The function `NewConnection`.  `userSessionUUID` is the result of
`uuid.NewString()`; `reads` are the results of the calls of
`wsutil.ReadClientData` the connection will see. -/
def NewConnection {σ : Type} (env : Env σ) (w : World σ) (userSessionUUID : String)
    (reads : List ReadResult) : Result σ :=
  let a := env.AddConnection w.ext userSessionUUID
  match a.2 with
  | some e =>
    { world := { w with ext := a.1 },
      trace := [.AddConnection userSessionUUID (some e), .initErr (some e)],
      status := .returned }
  | none =>
    let w1 := connectionAdd { w with ext := a.1 } userSessionUUID
    let b := connectionBody env userSessionUUID w1.ext reads
    let head : List Event :=
      [.AddConnection userSessionUUID none, .connectionAdd userSessionUUID]
    match b.status with
    | .blocked =>
      { world := { w1 with ext := b.state }, trace := head ++ b.trace, status := .blocked }
    | .returned =>
      let t := teardown env userSessionUUID { w1 with ext := b.state }
      { world := t.1, trace := head ++ b.trace ++ t.2, status := .returned }

/-- The lookup `r.UserGet(uuid)` of `chatReceiver` and the summary built from
its result: `none` when the lookup failed. -/
def userSummary {σ : Type} (env : Env σ) (s : σ) (uuid : String) : σ × Option User :=
  match env.UserGet s uuid with
  | (s1, .ok user) => (s1, some { UUID := user.UUID, Username := user.Username, rest := [] })
  | (s1, .error _) => (s1, none)

/-- The sender part of `chatReceiver`: `if msg.SenderUUID != "" { ... }`. -/
def resolveSender {σ : Type} (env : Env σ) (s : σ) (msg : DataChannelMessage) :
    σ × List Event × DataChannelMessage :=
  if msg.SenderUUID ≠ "" then
    match userSummary env s msg.SenderUUID with
    | (s1, some u) => (s1, [.UserGet msg.SenderUUID], { msg with Sender := some u })
    | (s1, none) => (s1, [.UserGet msg.SenderUUID], msg)
  else (s, [], msg)

/-- The recipient part of `chatReceiver`: `if msg.RecipientUUID != "" { ... }`. -/
def resolveRecipient {σ : Type} (env : Env σ) (s : σ) (msg : DataChannelMessage) :
    σ × List Event × DataChannelMessage :=
  if msg.RecipientUUID ≠ "" then
    match userSummary env s msg.RecipientUUID with
    | (s1, some u) => (s1, [.UserGet msg.RecipientUUID], { msg with Recipient := some u })
    | (s1, none) => (s1, [.UserGet msg.RecipientUUID], msg)
  else (s, [], msg)

/-- The case `data := <-channel.Channel()` of `chatReceiver`, for the payload
of the message received. -/
def relayMessage {σ : Type} (env : Env σ) (s : σ) (payload : String) : σ × List Event :=
  match env.decode payload with
  | (_, some e) => (s, [.log e])
  | (msg, none) =>
    let a := resolveSender env s msg
    let b := resolveRecipient env a.1 a.2.2
    let w := Write env b.1 OpText
      (.literal { Type_ := DataTypeChannelMessage, UserUUID := "",
                  ChannelMessage := some b.2.2, rest := [] })
    (w.1, a.2.1 ++ b.2.1 ++ w.2.1 ++ logErr w.2.2)

/-- The function `chatReceiver` over the outcomes of its `select`; the
deferred `channel.Closed()` runs when it returns. -/
def chatReceiver {σ : Type} (env : Env σ) (channel : ChannelPubSub) :
    σ → List Select → Outcome σ
  | s, [] => { state := s, trace := [], status := .blocked }
  | s, .close :: _ => { state := s, trace := [.Closed channel], status := .returned }
  | s, .data payload :: rest =>
    let m := relayMessage env s payload
    (chatReceiver env channel m.1 rest).after (.receive payload :: m.2)

/-! ## An environment for the examples -/

/-- The zero value of `message.Message`. -/
def emptyMessage : Message :=
  { Type_ := "", UserUUID := "", ChannelMessage := none, rest := [] }

/-- A decoder for the examples: the frame `?` is malformed, any other frame
decodes to a message of user `u1` whose type is the text of the frame. -/
def demoUnmarshal (data : String) : Message × Option String :=
  if data = "?" then (emptyMessage, some "invalid character")
  else ({ emptyMessage with Type_ := data, UserUUID := "u1" }, none)

/-- A channel message that carries a sender and a recipient of its own, no
`SenderUUID`, and the `RecipientUUID` of a user that does not exist. -/
def carriedMessage : DataChannelMessage :=
  { SenderUUID := "", RecipientUUID := "u3",
    Sender := some { UUID := "u9", Username := "mallory", rest := [("password", "secret")] },
    Recipient := some { UUID := "u3", Username := "bob", rest := [] },
    rest := [("message", "hi")] }

/-- A decoder of pub/sub payloads for the examples: the payload `?` is
malformed, the payload `!` is `carriedMessage`, any other payload is a message
from the user named by the payload to user `u2`. -/
def demoDecode (payload : String) : DataChannelMessage × Option String :=
  if payload = "?" then
    ({ SenderUUID := "", RecipientUUID := "", Sender := none, Recipient := none, rest := [] },
      some "invalid character")
  else if payload = "!" then (carriedMessage, none)
  else
    ({ SenderUUID := payload, RecipientUUID := "u2", Sender := none, Recipient := none,
       rest := [("message", "hi")] }, none)

/-- An environment for the examples.  The state counts the socket writes that
still succeed; `addErr` and `delErr` are the results of `AddConnection` and
`DelConnection`, `joined` and `opErr` those of the controller operations; only
user `u1` exists. -/
def demoEnv (addErr delErr : Option String) (joined : Option ChannelPubSub)
    (opErr : Option IError) : Env Nat where
  errCode := 1
  errCodeJSUnmarshal := 2
  marshal := fun _ => .ok "frame"
  unmarshal := demoUnmarshal
  decode := demoDecode
  WriteServerMessage := fun n _ _ => if n = 0 then (0, some "broken pipe") else (n - 1, none)
  connClose := fun _ => 0
  AddConnection := fun n _ => (n, addErr)
  DelConnection := fun n _ => (n, delErr)
  UserGet := fun n uuid =>
    if uuid = "u1" then
      (n, .ok { UUID := "u1", Username := "alice", rest := [("password", "secret")] })
    else (n, .error "user not found")
  SignIn := fun n _ _ _ => (n, opErr)
  SignUp := fun n _ _ _ => (n, opErr)
  SignOut := fun n _ _ _ => (n, opErr)
  Users := fun n _ _ => (n, opErr)
  ChannelJoin := fun n _ _ _ => (n, joined, opErr)
  ChannelMessage := fun n _ _ _ => (n, opErr)
  ChannelLeave := fun n _ _ => (n, opErr)

/-! ## Lemmas -/

theorem writesOf_append (a b : List Event) : writesOf (a ++ b) = writesOf a ++ writesOf b := by
  simp [writesOf]

theorem relaysStarted_append (a b : List Event) :
    relaysStarted (a ++ b) = relaysStarted a ++ relaysStarted b := by
  simp [relaysStarted]

theorem readsOf_append (a b : List Event) : readsOf (a ++ b) = readsOf a ++ readsOf b := by
  simp [readsOf]

theorem controllerCalls_append (a b : List Event) :
    controllerCalls (a ++ b) = controllerCalls a ++ controllerCalls b := by
  simp [controllerCalls]

theorem writesOf_logErr (r : Option String) : writesOf (logErr r) = [] := by
  cases r <;> rfl

theorem Write_writesOf {σ : Type} (env : Env σ) (s : σ) (op : OpCode) (m : Envelope) :
    writesOf (Write env s op m).2.1 = [(op, m)] := by
  unfold Write
  split
  · rfl
  · split <;> rfl

theorem Write_relaysStarted {σ : Type} (env : Env σ) (s : σ) (op : OpCode) (m : Envelope) :
    relaysStarted (Write env s op m).2.1 = [] := by
  unfold Write
  split
  · rfl
  · split <;> rfl

theorem Write_readsOf {σ : Type} (env : Env σ) (s : σ) (op : OpCode) (m : Envelope) :
    readsOf (Write env s op m).2.1 = [] := by
  unfold Write
  split
  · rfl
  · split <;> rfl

theorem Write_controllerCalls {σ : Type} (env : Env σ) (s : σ) (op : OpCode) (m : Envelope) :
    controllerCalls (Write env s op m).2.1 = [] := by
  unfold Write
  split
  · rfl
  · split <;> rfl

theorem serve_status {σ : Type} (env : Env σ) (sid : String) (reads : List ReadResult) :
    ∀ s : σ, (serve env sid s reads).status = .returned ↔ ∃ e, ReadResult.err e ∈ reads := by
  induction reads with
  | nil => intro s; simp [serve]
  | cons r rs ih =>
    intro s
    cases r with
    | err e => simp [serve]
    | ok data op => simp [serve, Outcome.after, ih]

theorem serve_trace_end {σ : Type} (env : Env σ) (sid : String) (reads : List ReadResult) :
    ∀ s : σ, (serve env sid s reads).status = .returned →
      ∃ pre e, (serve env sid s reads).trace = pre ++ [.ReadClientData (.err e), .log e] := by
  induction reads with
  | nil => intro s h; simp [serve] at h
  | cons r rs ih =>
    intro s h
    cases r with
    | err e => exact ⟨[], e, by simp [serve]⟩
    | ok data op =>
      simp only [serve, Outcome.after] at h ⊢
      obtain ⟨pre, e, hpre⟩ := ih _ h
      exact ⟨.ReadClientData (.ok data op) :: (serveFrame env sid s data op).2 ++ pre, e,
        by simp [hpre]⟩

theorem readsOf_logErr (r : Option String) : readsOf (logErr r) = [] := by
  cases r <;> rfl

theorem relaysStarted_logErr (r : Option String) : relaysStarted (logErr r) = [] := by
  cases r <;> rfl

theorem controllerCalls_logErr (r : Option String) : controllerCalls (logErr r) = [] := by
  cases r <;> rfl

theorem reportReceivedErr_readsOf {σ : Type} (env : Env σ) (sid : String) (s : σ)
    (data : String) (op : OpCode) (r : Option IError) :
    readsOf (reportReceivedErr env sid s data op r).2 = [] := by
  cases r with
  | none => rfl
  | some e =>
    simp only [reportReceivedErr, readsOf_append, Write_readsOf]
    rfl

theorem reportReceivedErr_relaysStarted {σ : Type} (env : Env σ) (sid : String) (s : σ)
    (data : String) (op : OpCode) (r : Option IError) :
    relaysStarted (reportReceivedErr env sid s data op r).2 = [] := by
  cases r with
  | none => rfl
  | some e =>
    simp only [reportReceivedErr, relaysStarted_append, Write_relaysStarted]
    rfl

theorem reportReceivedErr_controllerCalls {σ : Type} (env : Env σ) (sid : String) (s : σ)
    (data : String) (op : OpCode) (r : Option IError) :
    controllerCalls (reportReceivedErr env sid s data op r).2 = [] := by
  cases r with
  | none => rfl
  | some e =>
    simp only [reportReceivedErr, controllerCalls_append, Write_controllerCalls]
    rfl

theorem readsOf_nil : readsOf [] = [] := rfl

theorem readsOf_cons (e : Event) (tr : List Event) :
    readsOf (e :: tr) = e.asRead.toList ++ readsOf tr := by
  cases h : e.asRead <;> simp [readsOf, h]

theorem writesOf_nil : writesOf [] = [] := rfl

theorem writesOf_cons (e : Event) (tr : List Event) :
    writesOf (e :: tr) = e.asWrite.toList ++ writesOf tr := by
  cases h : e.asWrite <;> simp [writesOf, h]

theorem relaysStarted_nil : relaysStarted [] = [] := rfl

theorem relaysStarted_cons (e : Event) (tr : List Event) :
    relaysStarted (e :: tr) = e.asRelay.toList ++ relaysStarted tr := by
  cases h : e.asRelay <;> simp [relaysStarted, h]

theorem controllerCalls_nil : controllerCalls [] = [] := rfl

theorem controllerCalls_cons (e : Event) (tr : List Event) :
    controllerCalls (e :: tr)
      = (if e.isControllerOp then [e] else []) ++ controllerCalls tr := by
  cases h : e.isControllerOp <;> simp [controllerCalls, h]

theorem dispatch_readsOf {σ : Type} (env : Env σ) (sid : String) (s : σ)
    (data : String) (op : OpCode) (msg : Message) :
    readsOf (dispatch env sid s data op msg).2 = [] := by
  unfold dispatch
  split_ifs
  any_goals simp [readsOf_cons, Event.asRead, reportReceivedErr_readsOf]
  · split <;> simp [readsOf_cons, Event.asRead, reportReceivedErr_readsOf]
  · simp [readsOf_append, Write_readsOf, readsOf_logErr]

theorem serveFrame_readsOf {σ : Type} (env : Env σ) (sid : String) (s : σ)
    (data : String) (op : OpCode) :
    readsOf (serveFrame env sid s data op).2 = [] := by
  unfold serveFrame
  split
  · exact Write_readsOf _ _ _ _
  · simp [readsOf_cons, Event.asRead, dispatch_readsOf]

theorem serve_readsOf {σ : Type} (env : Env σ) (sid : String) (reads : List ReadResult) :
    ∀ s : σ, readsOf (serve env sid s reads).trace = consumed reads := by
  induction reads with
  | nil => intro s; rfl
  | cons r rs ih =>
    intro s
    cases r with
    | err e => rfl
    | ok data op =>
      simp [serve, Outcome.after, consumed, readsOf_cons, readsOf_append, Event.asRead,
        serveFrame_readsOf, ih]

theorem connectionBody_status {σ : Type} (env : Env σ) (sid : String) (s : σ)
    (reads : List ReadResult) :
    (connectionBody env sid s reads).status = .returned
      ↔ ((Write env s OpText (.ready sid)).2.2 ≠ none ∨ ∃ e, ReadResult.err e ∈ reads) := by
  unfold connectionBody
  cases h : (Write env s OpText (.ready sid)).2.2 with
  | some e => simp [h]
  | none => simp [h, Outcome.after, serve_status]

theorem resolveSender_writesOf {σ : Type} (env : Env σ) (s : σ) (msg : DataChannelMessage) :
    writesOf (resolveSender env s msg).2.1 = [] := by
  unfold resolveSender
  split_ifs
  · split <;> rfl
  · rfl

theorem resolveRecipient_writesOf {σ : Type} (env : Env σ) (s : σ)
    (msg : DataChannelMessage) : writesOf (resolveRecipient env s msg).2.1 = [] := by
  unfold resolveRecipient
  split_ifs
  · split <;> rfl
  · rfl

theorem resolveSender_eq {σ : Type} (env : Env σ) (s : σ) (msg : DataChannelMessage) :
    (resolveSender env s msg).2.2
      = if msg.SenderUUID ≠ "" then
          match (env.UserGet s msg.SenderUUID).2 with
          | .ok u => { msg with Sender := some { UUID := u.UUID, Username := u.Username,
                                                 rest := [] } }
          | .error _ => msg
        else msg := by
  unfold resolveSender userSummary
  split_ifs with h
  · rcases hu : env.UserGet s msg.SenderUUID with ⟨s1, e | u⟩ <;> simp
  · rfl

theorem resolveRecipient_eq {σ : Type} (env : Env σ) (s : σ) (msg : DataChannelMessage) :
    (resolveRecipient env s msg).2.2
      = if msg.RecipientUUID ≠ "" then
          match (env.UserGet s msg.RecipientUUID).2 with
          | .ok u => { msg with Recipient := some { UUID := u.UUID, Username := u.Username,
                                                    rest := [] } }
          | .error _ => msg
        else msg := by
  unfold resolveRecipient userSummary
  split_ifs with h
  · rcases hu : env.UserGet s msg.RecipientUUID with ⟨s1, e | u⟩ <;> simp
  · rfl

theorem chatReceiver_status {σ : Type} (env : Env σ) (channel : ChannelPubSub)
    (evs : List Select) :
    ∀ s : σ, (chatReceiver env channel s evs).status = .returned ↔ Select.close ∈ evs := by
  induction evs with
  | nil => intro s; simp [chatReceiver]
  | cons r rs ih =>
    intro s
    cases r with
    | close => simp [chatReceiver]
    | data payload => simp [chatReceiver, Outcome.after, ih]

theorem chatReceiver_trace_end {σ : Type} (env : Env σ) (channel : ChannelPubSub)
    (evs : List Select) :
    ∀ s : σ, (chatReceiver env channel s evs).status = .returned →
      ∃ pre, (chatReceiver env channel s evs).trace = pre ++ [.Closed channel] := by
  induction evs with
  | nil => intro s h; simp [chatReceiver] at h
  | cons r rs ih =>
    intro s h
    cases r with
    | close => exact ⟨[], by simp [chatReceiver]⟩
    | data payload =>
      simp only [chatReceiver, Outcome.after] at h ⊢
      obtain ⟨pre, hpre⟩ := ih _ h
      exact ⟨.receive payload :: (relayMessage env s payload).2 ++ pre, by simp [hpre]⟩

theorem framesOf_append (a b : List Event) : framesOf (a ++ b) = framesOf a ++ framesOf b := by
  simp [framesOf]

theorem framesOf_logErr (r : Option String) : framesOf (logErr r) = [] := by
  cases r <;> rfl

theorem Write_framesOf {σ : Type} (env : Env σ) (s : σ) (op : OpCode) (m : Envelope) :
    framesOf (Write env s op m).2.1
      = (match env.marshal m with
        | .error _ => []
        | .ok bytes => [.WriteServerMessage op bytes (env.WriteServerMessage s op bytes).2]) := by
  rcases hm : env.marshal m with me | bytes
  · simp [Write, hm, framesOf]
  · rcases hw : env.WriteServerMessage s op bytes with ⟨s1, _ | we⟩ <;>
      simp [Write, hm, hw, framesOf]

theorem Write_state {σ : Type} (env : Env σ) (s : σ) (op : OpCode) (m : Envelope) :
    (Write env s op m).1
      = (match env.marshal m with
        | .error _ => s
        | .ok bytes => (env.WriteServerMessage s op bytes).1) := by
  rcases hm : env.marshal m with me | bytes
  · simp [Write, hm]
  · rcases hw : env.WriteServerMessage s op bytes with ⟨s1, _ | we⟩ <;>
      simp [Write, hm, hw]

theorem resolveSender_framesOf {σ : Type} (env : Env σ) (s : σ) (msg : DataChannelMessage) :
    framesOf (resolveSender env s msg).2.1 = [] := by
  unfold resolveSender
  split_ifs
  · split <;> rfl
  · rfl

theorem resolveRecipient_framesOf {σ : Type} (env : Env σ) (s : σ)
    (msg : DataChannelMessage) : framesOf (resolveRecipient env s msg).2.1 = [] := by
  unfold resolveRecipient
  split_ifs
  · split <;> rfl
  · rfl

theorem resolveSender_state {σ : Type} (env : Env σ) (s : σ) (msg : DataChannelMessage) :
    (resolveSender env s msg).1
      = if msg.SenderUUID ≠ "" then (env.UserGet s msg.SenderUUID).1 else s := by
  unfold resolveSender userSummary
  split_ifs with h
  · rcases hu : env.UserGet s msg.SenderUUID with ⟨s1, e | u⟩ <;> simp
  · rfl

theorem resolveRecipient_state {σ : Type} (env : Env σ) (s : σ) (msg : DataChannelMessage) :
    (resolveRecipient env s msg).1
      = if msg.RecipientUUID ≠ "" then (env.UserGet s msg.RecipientUUID).1 else s := by
  unfold resolveRecipient userSummary
  split_ifs with h
  · rcases hu : env.UserGet s msg.RecipientUUID with ⟨s1, e | u⟩ <;> simp
  · rfl

theorem resolveSender_RecipientUUID {σ : Type} (env : Env σ) (s : σ)
    (msg : DataChannelMessage) :
    (resolveSender env s msg).2.2.RecipientUUID = msg.RecipientUUID := by
  rw [resolveSender_eq]
  split_ifs
  · split <;> rfl
  · rfl

/-! ## The serving loop -/

/-- C1: a frame that is read but does not decode is answered with the Error
Envelope of code `errCodeJSUnmarshal`: the envelope is handed to `Write` once,
marshalled with `json.Marshal` and sent to the connection as exactly one frame
with `wsutil.WriteServerMessage`, which moves the socket to its next state (a
failure to marshal or to send is only logged); no controller operation is
invoked for it, and the loop goes on with the next read.  A serving loop has
returned exactly when one of its reads failed: it has then performed every
read up to that failure, whatever the decodes, dispatches and writes in
between did, and its trace ends with the failed read. -/
theorem serve_decode_failure_reported_loop_continues {σ : Type} (env : Env σ)
    (sid : String) (s : σ) (data : String) (op : OpCode) (msg : Message) (e : String)
    (reads : List ReadResult) (hdec : env.unmarshal data = (msg, some e)) :
    serveFrame env sid s data op
        = (match env.marshal (.error env.errCodeJSUnmarshal e sid (.message msg)) with
          | .error me =>
            (s, [.Write op (.error env.errCodeJSUnmarshal e sid (.message msg)), .log me])
          | .ok bytes =>
            ((env.WriteServerMessage s op bytes).1,
              [.Write op (.error env.errCodeJSUnmarshal e sid (.message msg)),
                .WriteServerMessage op bytes (env.WriteServerMessage s op bytes).2]
              ++ (match (env.WriteServerMessage s op bytes).2 with
                  | some we => [.log we]
                  | none => [])))
      ∧ framesOf (serveFrame env sid s data op).2
        = (match env.marshal (.error env.errCodeJSUnmarshal e sid (.message msg)) with
          | .error _ => []
          | .ok bytes =>
            [.WriteServerMessage op bytes (env.WriteServerMessage s op bytes).2])
      ∧ writesOf (serveFrame env sid s data op).2
        = [(op, .error env.errCodeJSUnmarshal e sid (.message msg))]
      ∧ controllerCalls (serveFrame env sid s data op).2 = []
      ∧ serve env sid s (.ok data op :: reads)
        = (serve env sid (serveFrame env sid s data op).1 reads).after
            (.ReadClientData (.ok data op) :: (serveFrame env sid s data op).2)
      ∧ (∀ (s0 : σ) (rs : List ReadResult),
          ((serve env sid s0 rs).status = .returned ↔ ∃ e0, ReadResult.err e0 ∈ rs)
          ∧ readsOf (serve env sid s0 rs).trace = consumed rs
          ∧ ((serve env sid s0 rs).status = .returned →
              ∃ pre e0, (serve env sid s0 rs).trace
                = pre ++ [.ReadClientData (.err e0), .log e0])) := by
  refine ⟨?_, ?_, ?_, ?_, rfl, fun s0 rs => ⟨serve_status env sid rs s0,
    serve_readsOf env sid rs s0, serve_trace_end env sid rs s0⟩⟩
  · rcases hm : env.marshal (.error env.errCodeJSUnmarshal e sid (.message msg))
      with me | bytes
    · simp [serveFrame, hdec, Write, hm]
    · rcases hw : env.WriteServerMessage s op bytes with ⟨s1, _ | we⟩ <;>
        simp [serveFrame, hdec, Write, hm, hw]
  · rcases hm : env.marshal (.error env.errCodeJSUnmarshal e sid (.message msg))
      with me | bytes
    · simp [serveFrame, hdec, Write, hm, framesOf]
    · rcases hw : env.WriteServerMessage s op bytes with ⟨s1, _ | we⟩ <;>
        simp [serveFrame, hdec, Write, hm, hw, framesOf]
  · simp only [serveFrame, hdec]
    exact Write_writesOf _ _ _ _
  · simp only [serveFrame, hdec]
    exact Write_controllerCalls _ _ _ _

/-- C1 at a concrete input: the malformed frame `?` on session `s1`, on a
socket that accepts three more writes: one frame is sent and two writes are
left. -/
theorem serve_decode_failure_witness :
    (demoEnv none none none none).unmarshal "?" = (emptyMessage, some "invalid character")
      ∧ serveFrame (demoEnv none none none none) "s1" 3 "?" OpText
        = (2, [.Write OpText (.error 2 "invalid character" "s1" (.message emptyMessage)),
               .WriteServerMessage OpText "frame" none]) :=
  ⟨rfl, (serve_decode_failure_reported_loop_continues (demoEnv none none none none) "s1" 3
    "?" OpText emptyMessage "invalid character" [] rfl).1⟩

/-- C2: a decoded message whose type is none of the seven dispatched ones
is answered with the Error Envelope of code `errCode` and text
`unknow request data type: <type>`: after the log of the received frame the
envelope is handed to `Write` once, marshalled and sent to the connection as
exactly one frame with `wsutil.WriteServerMessage`, which moves the socket to
its next state (a failure to marshal or to send is only logged).  No
controller operation is invoked, no relay is started, and the loop goes on
with the next read, so its status is that of the loop on the remaining
reads. -/
theorem unknown_type_one_generic_error {σ : Type} (env : Env σ)
    (sid : String) (s : σ) (data : String) (op : OpCode) (msg : Message)
    (reads : List ReadResult) (hdec : env.unmarshal data = (msg, none))
    (htype : msg.Type_ ∉ dispatchedTypes) :
    serveFrame env sid s data op
        = (match env.marshal (.error env.errCode ("unknow request data type: " ++ msg.Type_)
              msg.UserUUID (.message msg)) with
          | .error me =>
            (s, [.log ("<<<<<<<<<<<< Received: " ++ data),
                 .Write op (.error env.errCode ("unknow request data type: " ++ msg.Type_)
                   msg.UserUUID (.message msg)),
                 .log me])
          | .ok bytes =>
            ((env.WriteServerMessage s op bytes).1,
              [.log ("<<<<<<<<<<<< Received: " ++ data),
               .Write op (.error env.errCode ("unknow request data type: " ++ msg.Type_)
                 msg.UserUUID (.message msg)),
               .WriteServerMessage op bytes (env.WriteServerMessage s op bytes).2]
              ++ (match (env.WriteServerMessage s op bytes).2 with
                  | some we => [.log we, .log we]
                  | none => [])))
      ∧ framesOf (serveFrame env sid s data op).2
        = (match env.marshal (.error env.errCode ("unknow request data type: " ++ msg.Type_)
              msg.UserUUID (.message msg)) with
          | .error _ => []
          | .ok bytes =>
            [.WriteServerMessage op bytes (env.WriteServerMessage s op bytes).2])
      ∧ writesOf (serveFrame env sid s data op).2
        = [(op, .error env.errCode ("unknow request data type: " ++ msg.Type_) msg.UserUUID
            (.message msg))]
      ∧ controllerCalls (serveFrame env sid s data op).2 = []
      ∧ relaysStarted (serveFrame env sid s data op).2 = []
      ∧ serve env sid s (.ok data op :: reads)
        = (serve env sid (serveFrame env sid s data op).1 reads).after
            (.ReadClientData (.ok data op) :: (serveFrame env sid s data op).2)
      ∧ (serve env sid s (.ok data op :: reads)).status
        = (serve env sid (serveFrame env sid s data op).1 reads).status := by
  simp only [dispatchedTypes, List.mem_cons, List.mem_singleton, not_or, List.mem_nil_iff,
    or_false] at htype
  obtain ⟨h1, h2, h3, h4, h5, h6, h7⟩ := htype
  refine ⟨?_, ?_, ?_, ?_, ?_, rfl, rfl⟩
  · rcases hm : env.marshal (.error env.errCode ("unknow request data type: " ++ msg.Type_)
        msg.UserUUID (.message msg)) with me | bytes
    · simp [serveFrame, hdec, dispatch, h1, h2, h3, h4, h5, h6, h7, Write, hm, logErr]
    · rcases hw : env.WriteServerMessage s op bytes with ⟨s1, _ | we⟩ <;>
        simp [serveFrame, hdec, dispatch, h1, h2, h3, h4, h5, h6, h7, Write, hm, hw, logErr]
  · rcases hm : env.marshal (.error env.errCode ("unknow request data type: " ++ msg.Type_)
        msg.UserUUID (.message msg)) with me | bytes
    · simp [serveFrame, hdec, dispatch, h1, h2, h3, h4, h5, h6, h7, Write, hm, logErr,
        framesOf]
    · rcases hw : env.WriteServerMessage s op bytes with ⟨s1, _ | we⟩ <;>
        simp [serveFrame, hdec, dispatch, h1, h2, h3, h4, h5, h6, h7, Write, hm, hw, logErr,
          framesOf]
  · simp [serveFrame, hdec, dispatch, h1, h2, h3, h4, h5, h6, h7, writesOf_cons,
      writesOf_append, Event.asWrite, Write_writesOf, writesOf_logErr]
  · simp [serveFrame, hdec, dispatch, h1, h2, h3, h4, h5, h6, h7, controllerCalls_cons,
      controllerCalls_append, Event.isControllerOp, Write_controllerCalls,
      controllerCalls_logErr]
  · simp [serveFrame, hdec, dispatch, h1, h2, h3, h4, h5, h6, h7, relaysStarted_cons,
      relaysStarted_append, Event.asRelay, Write_relaysStarted, relaysStarted_logErr]

/-- C2 at a concrete input: a frame of type `bogus` on session `s1`, on a
socket that accepts three more writes: one frame is sent and two writes are
left. -/
theorem unknown_type_witness :
    (demoEnv none none none none).unmarshal "bogus"
        = ({ emptyMessage with Type_ := "bogus", UserUUID := "u1" }, none)
      ∧ "bogus" ∉ dispatchedTypes
      ∧ serveFrame (demoEnv none none none none) "s1" 3 "bogus" OpText
        = (2, [.log "<<<<<<<<<<<< Received: bogus",
               .Write OpText (.error 1 "unknow request data type: bogus" "u1"
                 (.message { emptyMessage with Type_ := "bogus", UserUUID := "u1" })),
               .WriteServerMessage OpText "frame" none]) :=
  ⟨by decide, by decide,
    (unknown_type_one_generic_error (demoEnv none none none none) "s1" 3 "bogus" OpText
      { emptyMessage with Type_ := "bogus", UserUUID := "u1" } [] (by decide)
      (by decide)).1⟩

/-- C7: for a `channel_join` message `ChannelJoin` is called once and the
relays started are exactly the handle it returned: one relay when the handle
is non-nil, none when it is nil. -/
theorem channel_join_starts_relay_iff_handle {σ : Type} (env : Env σ)
    (sid : String) (s : σ) (data : String) (op : OpCode) (msg : Message)
    (hdec : env.unmarshal data = (msg, none)) (htype : msg.Type_ = DataTypeChannelJoin) :
    relaysStarted (serveFrame env sid s data op).2
        = (env.ChannelJoin s sid op msg).2.1.toList
      ∧ controllerCalls (serveFrame env sid s data op).2 = [.ChannelJoin sid op msg]
      ∧ (relaysStarted (serveFrame env sid s data op).2 ≠ []
          ↔ (env.ChannelJoin s sid op msg).2.1 ≠ none)
      ∧ (relaysStarted (serveFrame env sid s data op).2).length ≤ 1 := by
  have hrel : relaysStarted (serveFrame env sid s data op).2
      = (env.ChannelJoin s sid op msg).2.1.toList := by
    simp only [serveFrame, hdec, dispatch, htype]
    cases hj : (env.ChannelJoin s sid op msg).2.1 <;>
      simp [DataTypeChannelJoin, DataTypeSignIn, DataTypeSignUp, DataTypeSignOut,
        DataTypeUsers, relaysStarted_cons, Event.asRelay, reportReceivedErr_relaysStarted, hj]
  refine ⟨hrel, ?_, ?_, ?_⟩
  · simp only [serveFrame, hdec, dispatch, htype]
    cases hj : (env.ChannelJoin s sid op msg).2.1 <;>
      simp [DataTypeChannelJoin, DataTypeSignIn, DataTypeSignUp, DataTypeSignOut,
        DataTypeUsers, controllerCalls_cons, Event.isControllerOp,
        reportReceivedErr_controllerCalls, hj]
  · rw [hrel]
    cases (env.ChannelJoin s sid op msg).2.1 <;> simp
  · rw [hrel]
    cases (env.ChannelJoin s sid op msg).2.1 <;> simp

/-- C7 at a concrete input: a join for which the controller returns handle 7. -/
theorem channel_join_witness :
    (demoEnv none none (some 7) none).unmarshal "channel_join"
        = ({ emptyMessage with Type_ := "channel_join", UserUUID := "u1" }, none)
      ∧ ({ emptyMessage with Type_ := "channel_join", UserUUID := "u1" } : Message).Type_
        = DataTypeChannelJoin
      ∧ relaysStarted (serveFrame (demoEnv none none (some 7) none) "s1" 3 "channel_join"
          OpText).2 = [7] :=
  ⟨by decide, by decide,
    (channel_join_starts_relay_iff_handle (demoEnv none none (some 7) none) "s1" 3
      "channel_join" OpText { emptyMessage with Type_ := "channel_join", UserUUID := "u1" }
      (by decide) (by decide)).1⟩

/-! ## Set-up and teardown of a connection -/

/-- C3: when `AddConnection` fails with `e`, `NewConnection` sends `e` on
`initErr` and returns; that is all it does: it performs no read, hands nothing
to `Write`, sends no frame and leaves the local connection table as it was. -/
theorem registration_failure_aborts {σ : Type} (env : Env σ) (w : World σ)
    (sid : String) (reads : List ReadResult) (e : String)
    (hreg : (env.AddConnection w.ext sid).2 = some e) :
    (NewConnection env w sid reads).status = .returned
      ∧ (NewConnection env w sid reads).trace
        = [.AddConnection sid (some e), .initErr (some e)]
      ∧ readsOf (NewConnection env w sid reads).trace = []
      ∧ writesOf (NewConnection env w sid reads).trace = []
      ∧ framesOf (NewConnection env w sid reads).trace = []
      ∧ Event.connectionAdd sid ∉ (NewConnection env w sid reads).trace
      ∧ (NewConnection env w sid reads).world.connections = w.connections := by
  have h : NewConnection env w sid reads
      = { world := { w with ext := (env.AddConnection w.ext sid).1 },
          trace := [.AddConnection sid (some e), .initErr (some e)],
          status := .returned } := by
    simp [NewConnection, hreg]
  rw [h]
  refine ⟨rfl, rfl, rfl, rfl, rfl, ?_, rfl⟩
  simp

/-- C3 at a concrete input: Redis refuses the registration of session `s1`. -/
theorem registration_failure_witness :
    ((demoEnv (some "redis down") none none none).AddConnection 3 "s1").2 = some "redis down"
      ∧ (NewConnection (demoEnv (some "redis down") none none none) ⟨3, ["s0"]⟩ "s1"
          [.ok "users" OpText, .err "EOF"]).trace
        = [.AddConnection "s1" (some "redis down"), .initErr (some "redis down")] :=
  ⟨rfl, (registration_failure_aborts (demoEnv (some "redis down") none none none)
    ⟨3, ["s0"]⟩ "s1" [.ok "users" OpText, .err "EOF"] "redis down" rfl).2.1⟩

/-- C4: after a successful registration `NewConnection` returns exactly when
the ready write failed or one of the reads failed, and whenever it has
returned, what it did after the body of the function is the deferred
teardown, in this order: `conn.Close()` on the state the body left,
`r.DelConnection` for the session id on the state that leaves, a log of the
error `DelConnection` returned if it returned one, and `connectionDel` for the
session id.  The collaborators end in the state `DelConnection` left, and the
local table is the one before the connection without the session id, whether
or not `DelConnection` failed. -/
theorem teardown_on_every_return {σ : Type} (env : Env σ) (w : World σ)
    (sid : String) (reads : List ReadResult)
    (hreg : (env.AddConnection w.ext sid).2 = none) :
    ((NewConnection env w sid reads).status = .returned
        ↔ ((Write env (env.AddConnection w.ext sid).1 OpText (.ready sid)).2.2 ≠ none
            ∨ ∃ e, ReadResult.err e ∈ reads))
      ∧ ((NewConnection env w sid reads).status = .returned →
          (NewConnection env w sid reads).trace
              = [.AddConnection sid none, .connectionAdd sid]
                ++ (connectionBody env sid (env.AddConnection w.ext sid).1 reads).trace
                ++ ([.connClose,
                     .DelConnection sid
                       (env.DelConnection
                         (env.connClose
                           (connectionBody env sid (env.AddConnection w.ext sid).1
                             reads).state) sid).2]
                    ++ (match (env.DelConnection
                          (env.connClose
                            (connectionBody env sid (env.AddConnection w.ext sid).1
                              reads).state) sid).2 with
                        | some e => [.log e]
                        | none => [])
                    ++ [.connectionDel sid])
            ∧ (NewConnection env w sid reads).world.ext
              = (env.DelConnection
                  (env.connClose
                    (connectionBody env sid (env.AddConnection w.ext sid).1 reads).state)
                  sid).1
            ∧ (NewConnection env w sid reads).world.connections
              = w.connections.filter (fun k => k ≠ sid)
            ∧ sid ∉ (NewConnection env w sid reads).world.connections) := by
  have hb := connectionBody_status env sid (env.AddConnection w.ext sid).1 reads
  cases hs : (connectionBody env sid (env.AddConnection w.ext sid).1 reads).status with
  | blocked =>
    have h : (NewConnection env w sid reads).status = .blocked := by
      simp [NewConnection, hreg, connectionAdd, hs]
    rw [hs] at hb
    refine ⟨?_, ?_⟩
    · rw [h]; exact hb
    · rw [h]; intro hc; cases hc
  | returned =>
    have h : NewConnection env w sid reads
        = { world := (teardown env sid
              { ext := (connectionBody env sid (env.AddConnection w.ext sid).1 reads).state,
                connections := sid :: w.connections }).1,
            trace := [.AddConnection sid none, .connectionAdd sid]
              ++ (connectionBody env sid (env.AddConnection w.ext sid).1 reads).trace
              ++ (teardown env sid
              { ext := (connectionBody env sid (env.AddConnection w.ext sid).1 reads).state,
                connections := sid :: w.connections }).2,
            status := .returned } := by
      simp [NewConnection, hreg, connectionAdd, hs]
    rw [hs] at hb
    refine ⟨?_, ?_⟩
    · rw [h]; exact hb
    · intro _
      rw [h]
      refine ⟨?_, ?_, ?_, ?_⟩
      · cases hd : (env.DelConnection
            (env.connClose
              (connectionBody env sid (env.AddConnection w.ext sid).1 reads).state) sid).2 <;>
          simp [teardown, hd, logErr]
      · simp [teardown, connectionDel]
      · simp [teardown, connectionDel]
      · simp [teardown, connectionDel]

/-- C4 at a concrete input: session `s1` registers next to session `s0`,
receives a `users` request and then the read fails; `DelConnection` fails too,
which is logged before `connectionDel` runs. -/
theorem teardown_witness :
    ((demoEnv none (some "redis down") none none).AddConnection 3 "s1").2 = none
      ∧ (NewConnection (demoEnv none (some "redis down") none none) ⟨3, ["s0"]⟩ "s1"
          [.ok "users" OpText, .err "EOF"]).status = .returned
      ∧ (NewConnection (demoEnv none (some "redis down") none none) ⟨3, ["s0"]⟩ "s1"
          [.ok "users" OpText, .err "EOF"]).trace
        = [.AddConnection "s1" none, .connectionAdd "s1",
           .Write OpText (.ready "s1"), .WriteServerMessage OpText "frame" none,
           .initErr none,
           .ReadClientData (.ok "users" OpText), .log "<<<<<<<<<<<< Received: users",
           .Users "s1" OpText,
           .ReadClientData (.err "EOF"), .log "EOF",
           .connClose, .DelConnection "s1" (some "redis down"), .log "redis down",
           .connectionDel "s1"]
      ∧ (NewConnection (demoEnv none (some "redis down") none none) ⟨3, ["s0"]⟩ "s1"
          [.ok "users" OpText, .err "EOF"]).world.ext = 0
      ∧ (NewConnection (demoEnv none (some "redis down") none none) ⟨3, ["s0"]⟩ "s1"
          [.ok "users" OpText, .err "EOF"]).world.connections = ["s0"]
      ∧ "s1" ∉ (NewConnection (demoEnv none (some "redis down") none none)
            ⟨3, ["s0"]⟩ "s1" [.ok "users" OpText, .err "EOF"]).world.connections :=
  ⟨rfl, by decide,
    (teardown_on_every_return (demoEnv none (some "redis down") none none) ⟨3, ["s0"]⟩ "s1"
      [.ok "users" OpText, .err "EOF"] rfl).2 (by decide)⟩

/-- C5: evaluation on the path where registration fails.  `NewConnection` has
returned and `conn.Close()` was never called: the deferred function that
closes the connection is registered only after `AddConnection` succeeded. -/
theorem registration_failure_leaves_connection_open :
    (NewConnection (demoEnv (some "redis down") none none none) ⟨3, []⟩ "s1"
        [.err "EOF"]).status = .returned
      ∧ (NewConnection (demoEnv (some "redis down") none none none) ⟨3, []⟩ "s1"
          [.err "EOF"]).trace
        = [.AddConnection "s1" (some "redis down"), .initErr (some "redis down")]
      ∧ Event.connClose ∉ (NewConnection (demoEnv (some "redis down") none none none)
          ⟨3, []⟩ "s1" [.err "EOF"]).trace
      ∧ Event.connClose ∈ (NewConnection (demoEnv none none none none)
          ⟨0, []⟩ "s1" [.err "EOF"]).trace := by
  decide

/-- C9: evaluation on a frame of unknown type.  On session `s1` a message of
type `bogus` whose `UserUUID` is `u1` gets an Error Envelope built with `u1`,
the identifier carried by the message, not with the session identifier; the
envelopes for a decode failure and for a failed operation on the same session
are built with `s1`. -/
theorem unknown_type_error_built_with_message_user :
    writesOf (NewConnection (demoEnv none none none (some ⟨5, "denied"⟩)) ⟨9, []⟩ "s1"
        [.ok "bogus" OpText, .ok "?" OpText, .ok "users" OpText, .err "EOF"]).trace
      = [(OpText, .ready "s1"),
         (OpText, .error 1 "unknow request data type: bogus" "u1"
            (.message { emptyMessage with Type_ := "bogus", UserUUID := "u1" })),
         (OpText, .error 2 "invalid character" "s1" (.message emptyMessage)),
         (OpText, .error 5 "denied" "s1" (.text "users"))] := by
  decide

/-! ## The channel relay -/

/-- C8, as the code has it: for a pub/sub payload that decodes to `msg`, the
relay looks up the sender when `SenderUUID` is non-empty, then the recipient
when `RecipientUUID` is non-empty, and hands exactly one envelope to `Write`:
the literal of type `channel_message` whose only populated payload is the
channel message.  The envelope is marshalled and sent to the connection as
exactly one frame with `wsutil.WriteServerMessage`, on the state the lookups
left (a failure to marshal or to send is only logged).  The message written is
`msg` with `Sender` replaced by the summary (UUID and Username only) of the
user found exactly when `SenderUUID` is non-empty and `UserGet` succeeds, and
left as decoded otherwise; likewise `Recipient` for `RecipientUUID`. -/
theorem relay_forwards_one_channel_message {σ : Type} (env : Env σ) (s : σ)
    (payload : String) (msg : DataChannelMessage) (hdec : env.decode payload = (msg, none)) :
    ∃ (s1 s2 : σ) (out : DataChannelMessage),
      s1 = (if msg.SenderUUID ≠ "" then (env.UserGet s msg.SenderUUID).1 else s)
        ∧ s2 = (if msg.RecipientUUID ≠ "" then (env.UserGet s1 msg.RecipientUUID).1 else s1)
        ∧ out.SenderUUID = msg.SenderUUID ∧ out.RecipientUUID = msg.RecipientUUID
        ∧ out.rest = msg.rest
        ∧ out.Sender
          = (if msg.SenderUUID ≠ "" then
              match (env.UserGet s msg.SenderUUID).2 with
              | .ok u => some { UUID := u.UUID, Username := u.Username, rest := [] }
              | .error _ => msg.Sender
            else msg.Sender)
        ∧ out.Recipient
          = (if msg.RecipientUUID ≠ "" then
              match (env.UserGet s1 msg.RecipientUUID).2 with
              | .ok u => some { UUID := u.UUID, Username := u.Username, rest := [] }
              | .error _ => msg.Recipient
            else msg.Recipient)
        ∧ writesOf (relayMessage env s payload).2
          = [(OpText, .literal { Type_ := DataTypeChannelMessage, UserUUID := "",
                                 ChannelMessage := some out, rest := [] })]
        ∧ framesOf (relayMessage env s payload).2
          = (match env.marshal (.literal { Type_ := DataTypeChannelMessage, UserUUID := "",
                                           ChannelMessage := some out, rest := [] }) with
            | .error _ => []
            | .ok bytes =>
              [.WriteServerMessage OpText bytes (env.WriteServerMessage s2 OpText bytes).2])
        ∧ (relayMessage env s payload).1
          = (match env.marshal (.literal { Type_ := DataTypeChannelMessage, UserUUID := "",
                                           ChannelMessage := some out, rest := [] }) with
            | .error _ => s2
            | .ok bytes => (env.WriteServerMessage s2 OpText bytes).1) := by
  have hout :
      (resolveRecipient env (resolveSender env s msg).1
          (resolveSender env s msg).2.2).2.2.SenderUUID = msg.SenderUUID
        ∧ (resolveRecipient env (resolveSender env s msg).1
            (resolveSender env s msg).2.2).2.2.RecipientUUID = msg.RecipientUUID
        ∧ (resolveRecipient env (resolveSender env s msg).1
            (resolveSender env s msg).2.2).2.2.rest = msg.rest
        ∧ (resolveRecipient env (resolveSender env s msg).1
            (resolveSender env s msg).2.2).2.2.Sender
          = (if msg.SenderUUID ≠ "" then
              match (env.UserGet s msg.SenderUUID).2 with
              | .ok u => some { UUID := u.UUID, Username := u.Username, rest := [] }
              | .error _ => msg.Sender
            else msg.Sender)
        ∧ (resolveRecipient env (resolveSender env s msg).1
            (resolveSender env s msg).2.2).2.2.Recipient
          = (if msg.RecipientUUID ≠ "" then
              match (env.UserGet (resolveSender env s msg).1 msg.RecipientUUID).2 with
              | .ok u => some { UUID := u.UUID, Username := u.Username, rest := [] }
              | .error _ => msg.Recipient
            else msg.Recipient) := by
    rw [resolveRecipient_eq, resolveSender_eq]
    by_cases hs : msg.SenderUUID = "" <;> by_cases hr : msg.RecipientUUID = ""
    all_goals
      cases hu : (env.UserGet s msg.SenderUUID).2 <;>
      cases hv : (env.UserGet (resolveSender env s msg).1 msg.RecipientUUID).2 <;>
      simp [hs, hr, hu, hv]
  refine ⟨(resolveSender env s msg).1,
    (resolveRecipient env (resolveSender env s msg).1 (resolveSender env s msg).2.2).1,
    (resolveRecipient env (resolveSender env s msg).1 (resolveSender env s msg).2.2).2.2,
    resolveSender_state env s msg, ?_, hout.1, hout.2.1, hout.2.2.1, hout.2.2.2.1,
    hout.2.2.2.2, ?_, ?_, ?_⟩
  · rw [resolveRecipient_state, resolveSender_RecipientUUID]
  · simp [relayMessage, hdec, writesOf_append, resolveSender_writesOf,
      resolveRecipient_writesOf, Write_writesOf, writesOf_logErr]
  · simp only [relayMessage, hdec, framesOf_append, resolveSender_framesOf,
      resolveRecipient_framesOf, framesOf_logErr, Write_framesOf, List.nil_append,
      List.append_nil]
  · simp only [relayMessage, hdec, Write_state]

/-- C8 as amended, at a concrete input: a payload from user `u1`, who exists,
to user `u2`, who does not. -/
theorem relay_forwards_witness :
    (demoEnv none none none none).decode "u1"
        = ({ SenderUUID := "u1", RecipientUUID := "u2", Sender := none, Recipient := none,
             rest := [("message", "hi")] }, none)
      ∧ relayMessage (demoEnv none none none none) 3 "u1"
        = (2, [.UserGet "u1", .UserGet "u2",
               .Write OpText (.literal
                 { Type_ := DataTypeChannelMessage, UserUUID := "", rest := [],
                   ChannelMessage := some
                     { SenderUUID := "u1", RecipientUUID := "u2",
                       Sender := some { UUID := "u1", Username := "alice", rest := [] },
                       Recipient := none, rest := [("message", "hi")] } }),
               .WriteServerMessage OpText "frame" none])
      ∧ ∃ (s1 s2 : Nat) (out : DataChannelMessage),
          s1 = 3 ∧ s2 = s1 ∧ out.SenderUUID = "u1"
          ∧ writesOf (relayMessage (demoEnv none none none none) 3 "u1").2
            = [(OpText, .literal { Type_ := DataTypeChannelMessage, UserUUID := "",
                                   ChannelMessage := some out, rest := [] })] :=
  ⟨by decide, by decide,
    (relay_forwards_one_channel_message (demoEnv none none none none) 3 "u1"
      { SenderUUID := "u1", RecipientUUID := "u2", Sender := none, Recipient := none,
        rest := [("message", "hi")] } (by decide)).imp
      (fun _ h => h.imp (fun _ h => h.imp
        (fun _ h => ⟨h.1, h.2.1, h.2.2.1, h.2.2.2.2.2.2.2.1⟩)))⟩

/-- C8 as stated fails on a payload that carries a sender and a recipient of
its own.  `carriedMessage` has an empty `SenderUUID`, so no sender is looked
up, and the lookup of its recipient `u3` fails; yet the one envelope written
has both `Sender` and `Recipient` set, to the users the payload carried, the
sender with more than its UUID and Username. -/
theorem relay_forwards_sender_carried_by_payload :
    (demoEnv none none none none).decode "!" = (carriedMessage, none)
      ∧ carriedMessage.SenderUUID = ""
      ∧ ((demoEnv none none none none).UserGet 3 carriedMessage.RecipientUUID).2
        = .error "user not found"
      ∧ relayMessage (demoEnv none none none none) 3 "!"
        = (2, [.UserGet "u3",
               .Write OpText (.literal
                 { Type_ := DataTypeChannelMessage, UserUUID := "", rest := [],
                   ChannelMessage := some
                     { SenderUUID := "", RecipientUUID := "u3",
                       Sender := some { UUID := "u9", Username := "mallory",
                                        rest := [("password", "secret")] },
                       Recipient := some { UUID := "u3", Username := "bob", rest := [] },
                       rest := [("message", "hi")] } }),
               .WriteServerMessage OpText "frame" none]) := by
  refine ⟨by decide, by decide, rfl, by decide⟩

/-- C10: the relay has returned exactly when the close signal was among the
outcomes of its `select`, and whenever it has returned the last thing it did
was `channel.Closed()`.  A payload that fails to decode is logged, nothing is
handed to `Write` and the state is unchanged; after any delivered payload,
whatever its decode and its write did, the relay goes on with the next
outcome. -/
theorem relay_returns_only_on_close {σ : Type} (env : Env σ) (channel : ChannelPubSub) :
    (∀ (s : σ) (evs : List Select),
        (chatReceiver env channel s evs).status = .returned ↔ Select.close ∈ evs)
      ∧ (∀ (s : σ) (evs : List Select),
          (chatReceiver env channel s evs).status = .returned →
            ∃ pre, (chatReceiver env channel s evs).trace = pre ++ [.Closed channel])
      ∧ (∀ (s : σ) (payload : String) (msg : DataChannelMessage) (e : String),
          env.decode payload = (msg, some e) →
            relayMessage env s payload = (s, [.log e])
              ∧ writesOf (relayMessage env s payload).2 = [])
      ∧ (∀ (s : σ) (payload : String) (rest : List Select),
          chatReceiver env channel s (.data payload :: rest)
              = (chatReceiver env channel (relayMessage env s payload).1 rest).after
                  (.receive payload :: (relayMessage env s payload).2)
            ∧ (chatReceiver env channel s (.data payload :: rest)).status
              = (chatReceiver env channel (relayMessage env s payload).1 rest).status) := by
  refine ⟨fun s evs => chatReceiver_status env channel evs s,
    fun s evs => chatReceiver_trace_end env channel evs s, ?_, fun _ _ _ => ⟨rfl, rfl⟩⟩
  intro s payload msg e h
  have h1 : relayMessage env s payload = (s, [.log e]) := by simp [relayMessage, h]
  exact ⟨h1, by rw [h1]; rfl⟩

end Websocket
